import Mathlib

/-!
Verification of the synkio backend core against its specification.

The TypeScript sources are shallowly embedded: JavaScript strings are
modelled as lists of characters, byte buffers as lists of Fin 256, the
node crypto primitives (sha256, scrypt, AES-256-CBC) and the ethers
library as explicit collaborator structures whose concrete behaviour the
services never inspect, asynchronous call outcomes as explicit Except or
Option arguments, and the mongoose document store as an Option-valued
state threaded through each controller action.  Log output is modelled as
an explicit list of structured entries carrying exactly the dynamic data
the source passes to the logger.
-/

/-- JavaScript strings in the key vault layer are modelled as lists of
characters. -/
abbrev JStr := List Char

/-- A byte of a node Buffer. -/
abbrev Byte := Fin 256

/-- The character for one hex digit, lower case, as Buffer.toString hex
produces. -/
def hexDigitChar (n : Fin 16) : Char :=
  ("0123456789abcdef".data).getD n.val '0'

/-- The value of one hex digit character, case insensitive, as both
Buffer.from with the hex encoding and the validation regex accept. -/
def hexCharVal (c : Char) : Option (Fin 16) :=
  if h : 48 ≤ c.toNat ∧ c.toNat ≤ 57 then some ⟨c.toNat - 48, by omega⟩
  else if h2 : 97 ≤ c.toNat ∧ c.toNat ≤ 102 then some ⟨c.toNat - 87, by omega⟩
  else if h3 : 65 ≤ c.toNat ∧ c.toNat ≤ 70 then some ⟨c.toNat - 55, by omega⟩
  else none

/-- Whether a character matches the character class of the source regex
for hex data (0-9a-f with the i flag). -/
def isHexChar (c : Char) : Bool :=
  (hexCharVal c).isSome

/-- The test of the source regexes over a whole string; emptiness is
checked separately at each use site, as in the source. -/
def allHex (s : JStr) : Bool :=
  s.all isHexChar

/-- High nibble of a byte. -/
def byteHi (b : Byte) : Fin 16 := ⟨b.val / 16, by omega⟩

/-- Low nibble of a byte. -/
def byteLo (b : Byte) : Fin 16 := ⟨b.val % 16, by omega⟩

/-- Hex encoding of one byte (two lower case hex characters). -/
def hexEncodeByte (b : Byte) : JStr :=
  [hexDigitChar (byteHi b), hexDigitChar (byteLo b)]

/-- Buffer.toString with the hex encoding. -/
def hexEncode : List Byte → JStr
  | [] => []
  | b :: bs => hexEncodeByte b ++ hexEncode bs

/-- A byte from its two nibbles. -/
def mkByte (h l : Fin 16) : Byte := ⟨16 * h.val + l.val, by omega⟩

/-- Buffer.from with the hex encoding: consumes pairs of hex digits and
stops at a trailing odd digit or at the first non hex character, as node
does. -/
def hexDecodeJS : JStr → List Byte
  | c1 :: c2 :: rest =>
    match hexCharVal c1, hexCharVal c2 with
    | some h, some l => mkByte h l :: hexDecodeJS rest
    | _, _ => []
  | _ => []

theorem hexCharVal_hexDigitChar (n : Fin 16) : hexCharVal (hexDigitChar n) = some n := by
  revert n; decide

theorem hexDigitChar_ne_colon (n : Fin 16) : ¬((hexDigitChar n == ':') = true) := by
  revert n; decide

theorem isHexChar_hexDigitChar (n : Fin 16) : isHexChar (hexDigitChar n) = true := by
  revert n; decide

theorem hexEncode_length (bs : List Byte) : (hexEncode bs).length = 2 * bs.length := by
  induction bs with
  | nil => rfl
  | cons b bs ih => simp [hexEncode, hexEncodeByte, ih]; omega

theorem mem_hexEncode (bs : List Byte) (c : Char) (hc : c ∈ hexEncode bs) :
    ∃ n : Fin 16, c = hexDigitChar n := by
  induction bs with
  | nil => cases hc
  | cons b bs ih =>
    simp only [hexEncode, hexEncodeByte, List.cons_append, List.mem_cons,
      List.nil_append] at hc
    rcases hc with h | h | h
    · exact ⟨byteHi b, h⟩
    · exact ⟨byteLo b, h⟩
    · exact ih h

theorem mkByte_hi_lo (b : Byte) : mkByte (byteHi b) (byteLo b) = b := by
  apply Fin.ext
  simp [mkByte, byteHi, byteLo]
  omega

theorem hexDecodeJS_hexEncode (bs : List Byte) : hexDecodeJS (hexEncode bs) = bs := by
  induction bs with
  | nil => rfl
  | cons b bs ih =>
    show hexDecodeJS (hexDigitChar (byteHi b) :: hexDigitChar (byteLo b) :: hexEncode bs) = b :: bs
    simp [hexDecodeJS, hexCharVal_hexDigitChar, mkByte_hi_lo, ih]

theorem allHex_hexEncode (bs : List Byte) : allHex (hexEncode bs) = true := by
  apply List.all_eq_true.mpr
  intro c hc
  obtain ⟨n, rfl⟩ := mem_hexEncode bs c hc
  exact isHexChar_hexDigitChar n

theorem splitOn_hexPair (iv ct : List Byte) :
    (hexEncode iv ++ ':' :: hexEncode ct).splitOn ':' = [hexEncode iv, hexEncode ct] := by
  unfold List.splitOn
  rw [List.splitOnP_first _ (hexEncode iv)
    (fun x hx => by
      obtain ⟨n, rfl⟩ := mem_hexEncode iv x hx
      exact hexDigitChar_ne_colon n) ':' (by simp)]
  rw [List.splitOnP_eq_single _ _
    (fun x hx => by
      obtain ⟨n, rfl⟩ := mem_hexEncode ct x hx
      exact hexDigitChar_ne_colon n)]

theorem isEmpty_append_cons (a : JStr) (c : Char) (b : JStr) :
    (a ++ c :: b).isEmpty = false := by
  cases a <;> rfl

namespace WalletService

/-- The node crypto collaborator as the wallet service uses it: the
sha256 hex digest, scryptSync with the fixed salt and 32 byte output,
and the AES-256-CBC cipher.  Decryption yields none when the cipher
rejects the ciphertext (the ERR_OSSL_BAD_DECRYPT path of the source). -/
structure CryptoLib where
  sha256hex : JStr → JStr
  scryptKey : JStr → List Byte
  aesEnc : List Byte → List Byte → JStr → List Byte
  aesDec : List Byte → List Byte → List Byte → Option JStr

/-- The in-process master key fallback value checked by the source. -/
def defaultEncryptionKey : JStr := "default-key-change-in-production".data

/-- The symmetric key derivation shared by encryptPrivateKey and
decryptPrivateKey: scryptSync of the sha256 hex digest of the master key
concatenated with the password hash. -/
def deriveKey (lib : CryptoLib) (masterKey passwordHash : JStr) : List Byte :=
  lib.scryptKey (lib.sha256hex (masterKey ++ passwordHash))

/-- WalletService.encryptPrivateKey: AES-256-CBC under the derived key
and the given random 16 byte IV, stored as iv hex, a colon, then the
ciphertext hex. -/
def encryptPrivateKey (lib : CryptoLib) (masterKey privateKey passwordHash : JStr)
    (iv : List Byte) : JStr :=
  hexEncode iv ++ ':' :: hexEncode (lib.aesEnc (deriveKey lib masterKey passwordHash) iv privateKey)

/-- The distinct failure exits of decryptPrivateKey, one per throw site
of the source.  keyMismatch is the ERR_OSSL_BAD_DECRYPT branch, the
KeyMismatchError of the specification. -/
inductive DecErr
  | requiredKey
  | requiredHash
  | invalidFormat
  | invalidIV
  | invalidData
  | ivLen
  | emptyData
  | keyMismatch
  | emptyResult
deriving DecidableEq

/-- One logger call of the key vault code paths, carrying exactly the
dynamic payload the source passes to the logger. -/
inductive LogEntry
  | warnDefaultKey
  | errFormatSite (preview : JStr)
  | errIVSite (ivChars : Nat)
  | errDataSite (dataChars : Nat)
  | errInvalidCatch (preview50 : JStr)
  | errBadDecrypt (masterLen phLen numParts encLen : Nat)
  | errGeneric (e : DecErr)
  | warnKeyShape (decLen : Nat)
  | errWalletFromKey (decLen : Nat) (keyPreview : JStr)
  | errGetWallet
  | warnProviderFail (address : JStr) (msg : JStr)
  | warnFallbackBalance (address : JStr)
  | errBalanceCatch (hasEncKey hasPh : Bool)
deriving DecidableEq

/-- Whether a decrypted key matches the expected shape the source warns
about: starts with 0x and is 66 characters long. -/
def keyShapeOk (d : JStr) : Bool :=
  (d.take 2 == ['0', 'x']) && (d.length == 66)

/-- The tail of decryptPrivateKey once the cipher has produced a
plaintext: the emptiness guard and the soft shape warning of the source
(lines 265 to 273). -/
def decryptFinish (d : JStr) : Except DecErr JStr × List LogEntry :=
  if d.isEmpty then (.error .emptyResult, [.errGeneric .emptyResult])
  else if keyShapeOk d then (.ok d, []) else (.ok d, [.warnKeyShape d.length])

/-- WalletService.decryptPrivateKey with its full validation chain and
its logging, including the logger calls of its own catch block.  The
error value records which throw site fired after the catch block has
reclassified it. -/
def decryptPrivateKey (lib : CryptoLib) (masterKey encryptedPrivateKey passwordHash : JStr) :
    Except DecErr JStr × List LogEntry :=
  let logs0 : List LogEntry :=
    if masterKey = defaultEncryptionKey then [.warnDefaultKey] else []
  if encryptedPrivateKey.isEmpty then
    (.error .requiredKey, logs0 ++ [.errGeneric .requiredKey])
  else if passwordHash.isEmpty then
    (.error .requiredHash, logs0 ++ [.errGeneric .requiredHash])
  else
    let parts := encryptedPrivateKey.splitOn ':'
    if parts.length != 2 then
      (.error .invalidFormat,
        logs0 ++ [.errFormatSite (encryptedPrivateKey.take 20),
          .errInvalidCatch (encryptedPrivateKey.take 50)])
    else
      let p0 := parts.getD 0 []
      let p1 := parts.getD 1 []
      if p0.length != 32 || !allHex p0 then
        (.error .invalidIV,
          logs0 ++ [.errIVSite p0.length, .errInvalidCatch (encryptedPrivateKey.take 50)])
      else if p1.length == 0 || !allHex p1 then
        (.error .invalidData,
          logs0 ++ [.errDataSite p1.length, .errInvalidCatch (encryptedPrivateKey.take 50)])
      else
        let iv := hexDecodeJS p0
        if iv.length != 16 then
          (.error .ivLen, logs0 ++ [.errInvalidCatch (encryptedPrivateKey.take 50)])
        else
          let encBytes := hexDecodeJS p1
          if encBytes.isEmpty then
            (.error .emptyData, logs0 ++ [.errGeneric .emptyData])
          else
            match lib.aesDec (deriveKey lib masterKey passwordHash) iv encBytes with
            | none =>
              (.error .keyMismatch,
                logs0 ++ [.errBadDecrypt masterKey.length passwordHash.length
                  parts.length encryptedPrivateKey.length])
            | some d =>
              let r := decryptFinish d
              (r.1, logs0 ++ r.2)

/-- The ethers collaborator as the wallet service uses it: whether the
ethers.Wallet constructor accepts a private key string, the public
address it derives, and formatEther. -/
structure EthersLib where
  isValidKey : JStr → Bool
  addressOf : JStr → JStr
  formatEther : Int → JStr

/-- An ethers.Wallet instance as far as the wallet service observes it. -/
structure WalletVal where
  privateKey : JStr
  address : JStr
deriving DecidableEq

/-- The failure exits of getWallet. -/
inductive GetWalletErr
  | decryptFailed (e : DecErr)
  | invalidDecrypted
deriving DecidableEq

/-- The tail of getWallet once decryption has produced a plaintext: the
ethers.Wallet construction attempt, whose failure branch logs the length
and the first ten characters of the decrypted key (source lines 344 to
351). -/
def walletFinish (E : EthersLib) (d : JStr) : Except GetWalletErr WalletVal × List LogEntry :=
  if E.isValidKey d then (.ok ⟨d, E.addressOf d⟩, [])
  else (.error .invalidDecrypted, [.errWalletFromKey d.length (d.take 10)])

/-- WalletService.getWallet.  Its catch block rethrows a key mismatch
untouched (its message contains ENCRYPTION_KEY) and logs then wraps
every other failure. -/
def getWallet (E : EthersLib) (lib : CryptoLib) (masterKey encryptedPrivateKey passwordHash : JStr) :
    Except GetWalletErr WalletVal × List LogEntry :=
  let d := decryptPrivateKey lib masterKey encryptedPrivateKey passwordHash
  match d.1 with
  | .error e =>
    if e = .keyMismatch then (.error (.decryptFailed e), d.2)
    else (.error (.decryptFailed e), d.2 ++ [.errGetWallet])
  | .ok pk =>
    let w := walletFinish E pk
    match w.1 with
    | .ok wv => (.ok wv, d.2 ++ w.2)
    | .error ge => (.error ge, d.2 ++ w.2 ++ [.errGetWallet])

/-- The failure exits of getWalletBalance. -/
inductive BalanceErr
  | requiredKey
  | requiredHash
  | fromWallet (e : GetWalletErr)
deriving DecidableEq

/-- The tail of getWalletBalance once a wallet exists: the optional
provider query, its failure warning, and the fallback balance warning,
each of which logs the derived public address (source lines 379 to
392). -/
def balanceFinish (E : EthersLib) (w : WalletVal) (prov : Option (Except JStr Int)) :
    Except BalanceErr JStr × List LogEntry :=
  match prov with
  | some (.ok bal) => (.ok (E.formatEther bal), [])
  | some (.error msg) =>
    (.ok ("0.0".data), [.warnProviderFail w.address msg, .warnFallbackBalance w.address])
  | none => (.ok ("0.0".data), [.warnFallbackBalance w.address])

/-- WalletService.getWalletBalance: the presence guards, the getWallet
call, then balanceFinish; its catch block logs only the error message
and the presence booleans of the inputs. -/
def getWalletBalance (E : EthersLib) (lib : CryptoLib)
    (masterKey encryptedPrivateKey passwordHash : JStr)
    (prov : Option (Except JStr Int)) :
    Except BalanceErr JStr × List LogEntry :=
  if encryptedPrivateKey.isEmpty then
    (.error .requiredKey, [.errBalanceCatch false (!passwordHash.isEmpty)])
  else if passwordHash.isEmpty then
    (.error .requiredHash, [.errBalanceCatch true false])
  else
    let g := getWallet E lib masterKey encryptedPrivateKey passwordHash
    match g.1 with
    | .error ge => (.error (.fromWallet ge), g.2 ++ [.errBalanceCatch true true])
    | .ok w =>
      let b := balanceFinish E w prov
      (b.1, g.2 ++ b.2)

end WalletService

/-- An injective encoding of a character as three bytes, used only to
build computable collaborator instances for witnesses. -/
def charBytes (c : Char) : List Byte :=
  [⟨c.toNat / 65536 % 256, by omega⟩, ⟨c.toNat / 256 % 256, by omega⟩, ⟨c.toNat % 256, by omega⟩]

/-- String to bytes, three bytes per character. -/
def strBytes : JStr → List Byte
  | [] => []
  | c :: cs => charBytes c ++ strBytes cs

/-- Bytes back to a string, three bytes per character. -/
def bytesStr : List Byte → JStr
  | b1 :: b2 :: b3 :: rest =>
    Char.ofNat (b1.val * 65536 + b2.val * 256 + b3.val) :: bytesStr rest
  | _ => []

/-- A computable stand in for the node crypto collaborator, used to
instantiate witnesses: the hash is the identity, the derived key is the
byte encoding of its input, and the cipher prepends the key to the
encoded plaintext, rejecting any ciphertext that does not start with the
expected key. -/
def toyCrypto : WalletService.CryptoLib :=
  ⟨fun s => s,
   strBytes,
   fun k _ p => k ++ strBytes p,
   fun k _ ct => if ct.take k.length == k then some (bytesStr (ct.drop k.length)) else none⟩

/-- A computable stand in for the ethers collaborator, used to
instantiate witnesses: a key is accepted exactly when it has the 0x plus
64 hex character shape, and the derived address is an arbitrary function
of the key. -/
def toyEthers : WalletService.EthersLib :=
  ⟨fun p => WalletService.keyShapeOk p && allHex (p.drop 2),
   fun p => p.take 6,
   fun n => (toString n).data⟩

/-- A degenerate crypto collaborator whose decryption always yields the
given plaintext, used to compare runs that differ only in the decrypted
key content. -/
def constDecCrypto (p : JStr) : WalletService.CryptoLib :=
  ⟨fun s => s, strBytes, fun k _ _ => k, fun _ _ _ => some p⟩

namespace WalletService

theorem decryptFinish_fst_ok (d : JStr) (hd : d ≠ []) : (decryptFinish d).1 = .ok d := by
  unfold decryptFinish
  rw [if_neg (by simp [hd])]
  split <;> rfl

/-- Evaluation of decryptPrivateKey on the output of encryptPrivateKey,
for any non empty password hash offered at decryption time: every
validation gate passes and the outcome is decided by the cipher. -/
theorem decryptPrivateKey_encrypt_step (lib : CryptoLib) (masterKey privateKey ph ph2 : JStr)
    (iv : List Byte) (hiv : iv.length = 16) (hph2 : ph2 ≠ [])
    (hNe : lib.aesEnc (deriveKey lib masterKey ph) iv privateKey ≠ []) :
    (decryptPrivateKey lib masterKey (encryptPrivateKey lib masterKey privateKey ph iv) ph2).1 =
      match lib.aesDec (deriveKey lib masterKey ph2) iv
          (lib.aesEnc (deriveKey lib masterKey ph) iv privateKey) with
      | none => .error .keyMismatch
      | some d => (decryptFinish d).1 := by
  unfold decryptPrivateKey encryptPrivateKey
  rw [splitOn_hexPair]
  have h1 : (hexEncode iv).length = 32 := by rw [hexEncode_length, hiv]
  simp only [isEmpty_append_cons, List.length_cons, List.length_singleton,
    List.getD_cons_zero, List.getD_cons_succ, hexDecodeJS_hexEncode, h1,
    allHex_hexEncode, hexEncode_length, hiv]
  norm_num [hph2, List.isEmpty_iff, hNe, Nat.mul_eq_zero, List.length_eq_zero]
  split <;> rfl

theorem decryptFinish_snd (d : JStr) :
    (decryptFinish d).2 =
      if d.isEmpty then [LogEntry.errGeneric .emptyResult]
      else if keyShapeOk d then [] else [LogEntry.warnKeyShape d.length] := by
  unfold decryptFinish
  split
  · rfl
  · split <;> rfl

end WalletService

instance exceptDecEq {ε α : Type} [DecidableEq ε] [DecidableEq α] :
    DecidableEq (Except ε α) := fun a b =>
  match a, b with
  | .ok x, .ok y =>
    if h : x = y then isTrue (by rw [h]) else isFalse (fun he => by cases he; exact h rfl)
  | .error x, .error y =>
    if h : x = y then isTrue (by rw [h]) else isFalse (fun he => by cases he; exact h rfl)
  | .ok _, .error _ => isFalse (fun he => by cases he)
  | .error _, .ok _ => isFalse (fun he => by cases he)

/-- The private key used by the C1 witness. -/
def c1PrivKey : JStr :=
  "0x1111111111111111111111111111111111111111111111111111111111111111".data

/-- C1: for every master key, password hash and private key, decrypting
the result of encryptPrivateKey with the same password hash returns
exactly the private key, and decrypting it with a different password
hash fails with the key mismatch error and yields no plaintext at all.
The cipher collaborator is assumed to invert its own encryption and to
reject the ciphertext under the key derived from the other password
hash, which is the contract the specification gives the underlying
cipher; the claim is amended to require a non empty private key and a
non empty password hash, as forced by the counterexample. -/
theorem c1_key_roundtrip_and_mismatch
    (lib : WalletService.CryptoLib) (masterKey passwordHash otherHash privateKey : JStr)
    (iv : List Byte)
    (hiv : iv.length = 16)
    (hp : privateKey ≠ [])
    (hph : passwordHash ≠ [])
    (hround : lib.aesDec (WalletService.deriveKey lib masterKey passwordHash) iv
        (lib.aesEnc (WalletService.deriveKey lib masterKey passwordHash) iv privateKey)
        = some privateKey)
    (hNe : lib.aesEnc (WalletService.deriveKey lib masterKey passwordHash) iv privateKey ≠ []) :
    (WalletService.decryptPrivateKey lib masterKey
        (WalletService.encryptPrivateKey lib masterKey privateKey passwordHash iv)
        passwordHash).1 = .ok privateKey
    ∧ (otherHash ≠ [] →
        lib.aesDec (WalletService.deriveKey lib masterKey otherHash) iv
            (lib.aesEnc (WalletService.deriveKey lib masterKey passwordHash) iv privateKey)
          = none →
        (WalletService.decryptPrivateKey lib masterKey
            (WalletService.encryptPrivateKey lib masterKey privateKey passwordHash iv)
            otherHash).1 = .error WalletService.DecErr.keyMismatch) := by
  constructor
  · rw [WalletService.decryptPrivateKey_encrypt_step lib masterKey privateKey passwordHash
      passwordHash iv hiv hph hNe, hround]
    exact WalletService.decryptFinish_fst_ok privateKey hp
  · intro ho hrej
    rw [WalletService.decryptPrivateKey_encrypt_step lib masterKey privateKey passwordHash
      otherHash iv hiv ho hNe, hrej]

/-- C1 witness: the round trip and the mismatch rejection evaluated on
the computable toy collaborator at concrete inputs. -/
theorem c1_witness :
    (WalletService.decryptPrivateKey toyCrypto ("m".data)
        (WalletService.encryptPrivateKey toyCrypto ("m".data) c1PrivKey ("hashA".data)
          (List.replicate 16 0))
        ("hashA".data)).1 = .ok c1PrivKey
    ∧ (WalletService.decryptPrivateKey toyCrypto ("m".data)
        (WalletService.encryptPrivateKey toyCrypto ("m".data) c1PrivKey ("hashA".data)
          (List.replicate 16 0))
        ("hashB".data)).1 = .error WalletService.DecErr.keyMismatch := by
  have h := c1_key_roundtrip_and_mismatch toyCrypto ("m".data) ("hashA".data) ("hashB".data)
    c1PrivKey (List.replicate 16 0) (by decide) (by decide) (by decide) (by decide) (by decide)
  exact ⟨h.1, h.2 (by decide) (by decide)⟩

/-- C1 counterexample: with an empty private key the round trip ends in
the empty result error instead of returning the key, and with an empty
password hash decryption is rejected before the cipher runs, so the
claim quantified over every password hash and private key is false. -/
theorem c1_counterexample :
    (WalletService.decryptPrivateKey toyCrypto ("m".data)
        (WalletService.encryptPrivateKey toyCrypto ("m".data) [] ("hashA".data)
          (List.replicate 16 0))
        ("hashA".data)).1 = .error WalletService.DecErr.emptyResult
    ∧ (WalletService.decryptPrivateKey toyCrypto ("m".data)
        (WalletService.encryptPrivateKey toyCrypto ("m".data) c1PrivKey [] (List.replicate 16 0))
        []).1 = .error WalletService.DecErr.requiredHash := by
  decide

/-- The well formed decrypted key for the C2 counterexample. -/
def c2ValidKey : JStr :=
  "0x2222222222222222222222222222222222222222222222222222222222222222".data

/-- The ill formed decrypted plaintext for the C2 counterexample. -/
def c2Secret : JStr := "hello-world-secret".data

/-- The stored ciphertext for the C2 counterexample. -/
def c2EncKey : JStr := "00000000000000000000000000000000:ab".data

/-- C2 counterexample: two getWallet runs with identical stored inputs
but different decrypted plaintexts produce different logs, and the log
of the second run contains the first ten characters of the decrypted
key, so the logged payloads are not independent of the decrypted key
content. -/
theorem c2_counterexample :
    (WalletService.getWallet toyEthers (constDecCrypto c2ValidKey) ("m".data) c2EncKey
        ("h".data)).2
      ≠ (WalletService.getWallet toyEthers (constDecCrypto c2Secret) ("m".data) c2EncKey
        ("h".data)).2
    ∧ WalletService.LogEntry.errWalletFromKey 18 ("hello-worl".data)
      ∈ (WalletService.getWallet toyEthers (constDecCrypto c2Secret) ("m".data) c2EncKey
        ("h".data)).2 := by
  decide

/-- C2, amended: the key vault logs are not fully independent of the
decrypted key content, but the dependence is exactly this: the logs of
the decryption tail depend on the decrypted key only through its length
and its shape flag, the wallet construction tail logs nothing when the
key is valid and logs the length and the first ten characters of the
decrypted key when the ethers constructor rejects it, and the balance
tail logs only the derived public address, never the private key
characters. -/
theorem c2_log_content_characterization :
    (∀ d1 d2 : JStr, d1.length = d2.length →
        WalletService.keyShapeOk d1 = WalletService.keyShapeOk d2 →
        (WalletService.decryptFinish d1).2 = (WalletService.decryptFinish d2).2)
    ∧ (∀ (E : WalletService.EthersLib) (d : JStr), E.isValidKey d = true →
        (WalletService.walletFinish E d).2 = [])
    ∧ (∀ (E : WalletService.EthersLib) (d : JStr), E.isValidKey d = false →
        (WalletService.walletFinish E d).2 =
          [WalletService.LogEntry.errWalletFromKey d.length (d.take 10)])
    ∧ (∀ (E : WalletService.EthersLib) (pk1 pk2 addr : JStr)
        (prov : Option (Except JStr Int)),
        (WalletService.balanceFinish E ⟨pk1, addr⟩ prov).2 =
          (WalletService.balanceFinish E ⟨pk2, addr⟩ prov).2) := by
  refine ⟨?_, ?_, ?_, ?_⟩
  · intro d1 d2 hlen hshape
    have he : d1.isEmpty = d2.isEmpty := by
      cases d1 <;> cases d2 <;> simp_all
    rw [WalletService.decryptFinish_snd, WalletService.decryptFinish_snd, he, hshape, hlen]
  · intro E d h
    simp [WalletService.walletFinish, h]
  · intro E d h
    simp [WalletService.walletFinish, h]
  · intro E pk1 pk2 addr prov
    cases prov with
    | none => rfl
    | some x => cases x <;> rfl

namespace SafetyService

/-- The DD.xyz threat risk payload as the safety service reads it:
every field optional, the categorical risk level an arbitrary string. -/
structure ThreatData where
  riskScore : Option Int
  riskLevel : Option String
  flaggedReasons : Option (List String)
deriving DecidableEq

/-- The BlockRader payload fields calculateRiskScore inspects.  The
service never assigns this value in checkWalletSafety, so it is always
none there, but the scoring code is embedded in full. -/
structure BlockRaderData where
  suspiciousActivity : Bool
  newAccount : Bool
  riskScore : Option Int
  flags : Option (List String)
deriving DecidableEq

/-- A risk assessment.  The responseTime and timestamp metadata fields
are wall clock strings and are not modelled; the providers list is the
metadata field the claims inspect. -/
structure SafetyResult where
  riskLevel : String
  score : Int
  reasons : List String
  recommendation : String
  providers : List String
deriving DecidableEq

/-- The chain union type of checkWalletSafety. -/
inductive ChainT
  | ethereum
  | base
  | solana
deriving DecidableEq

/-- DDxyzService.getThreatRisk: yields null without an API key, and
null again on any API failure (the catch block returns null); it never
throws.  The HTTP outcome is an explicit argument. -/
def getThreatRisk (hasApiKey : Bool) (api : Except String ThreatData) : Option ThreatData :=
  if !hasApiKey then none
  else
    match api with
    | .ok d => some d
    | .error _ => none

/-- The riskDeductions table lookup of calculateRiskScore combined with
the JavaScript default of 0 for a level outside the table. -/
def riskDeductions (lvl : String) : Int :=
  if lvl = "low" then 0
  else if lvl = "medium" then 20
  else if lvl = "high" then 50
  else if lvl = "critical" then 80
  else 0

/-- SafetyService.calculateRiskScore: start at 100, subtract the
numeric riskScore when present else the table value of the categorical
riskLevel, apply the BlockRader deductions, clamp to the interval from
0 to 100. -/
def calculateRiskScore (ddxyzData : Option ThreatData) (blockRaderData : Option BlockRaderData) :
    Int :=
  let s1 : Int :=
    match ddxyzData with
    | none => 100
    | some d =>
      match d.riskScore with
      | some rs => 100 - rs
      | none =>
        match d.riskLevel with
        | some lvl => 100 - riskDeductions lvl
        | none => 100
  let s2 : Int :=
    match blockRaderData with
    | none => s1
    | some b =>
      let t1 := if b.suspiciousActivity then s1 - 30 else s1
      let t2 := if b.newAccount then t1 - 10 else t1
      match b.riskScore with
      | some rs => t2 - rs
      | none => t2
  max 0 (min 100 s2)

/-- SafetyService.mapRiskLevel. -/
def mapRiskLevel (score : Int) : String :=
  if score ≥ 80 then "low"
  else if score ≥ 60 then "medium"
  else if score ≥ 30 then "high"
  else "critical"

/-- SafetyService.generateReasons. -/
def generateReasons (dd : Option ThreatData) (br : Option BlockRaderData) : List String :=
  let r1 : List String :=
    match dd with
    | some d => d.flaggedReasons.getD []
    | none => []
  let r2 := r1 ++ (match br with
    | some b => b.flags.getD []
    | none => [])
  if r2.isEmpty then ["No specific risk factors identified"] else r2

/-- SafetyService.generateRecommendation, with the JavaScript default
for a level outside the table. -/
def generateRecommendation (riskLevel : String) : String :=
  if riskLevel = "low" then "✅ Safe to proceed"
  else if riskLevel = "medium" then "⚠️ Exercise caution - review details"
  else if riskLevel = "high" then "🚨 High risk - consider avoiding"
  else if riskLevel = "critical" then "🛑 Critical risk - do not proceed"
  else "❓ Unable to assess"

/-- SafetyService.checkWalletSafety, success path: the DD.xyz provider
is queried only for the ethereum and base chains, its outcome is the
threat argument, and blockRaderData is never assigned.  The catch block
of the source is unreachable on this path because getThreatRisk never
throws; its fixed result is fallbackWalletSafety below. -/
def checkWalletSafety (chain : ChainT) (threat : Option ThreatData) : SafetyResult :=
  let threatData : Option ThreatData :=
    match chain with
    | .solana => none
    | _ => threat
  let providers : List String :=
    match threatData with
    | some _ => ["dd.xyz"]
    | none => []
  let riskScore := calculateRiskScore threatData none
  let riskLevel := mapRiskLevel riskScore
  ⟨riskLevel, riskScore, generateReasons threatData none,
    generateRecommendation riskLevel, providers⟩

/-- The fixed neutral assessment built by the catch block of
checkWalletSafety. -/
def fallbackWalletSafety : SafetyResult :=
  ⟨"medium", 50, ["Unable to verify wallet - exercise caution"],
    "⚠️ Verification unavailable - proceed with caution", ["fallback"]⟩

/-- SafetyService.checkTransactionSafety, success path: wraps the
wallet safety result of the recipient and appends the fixed standard
transfer note. -/
def checkTransactionSafety (toAddressSafety : SafetyResult) : SafetyResult :=
  ⟨toAddressSafety.riskLevel, toAddressSafety.score,
    toAddressSafety.reasons ++ ["Standard transfer"],
    toAddressSafety.recommendation, toAddressSafety.providers⟩

/-- SafetyService.getRiskPriority, with the JavaScript default of 1 for
a level outside the table. -/
def getRiskPriority (riskLevel : String) : Nat :=
  if riskLevel = "low" then 1
  else if riskLevel = "medium" then 2
  else if riskLevel = "high" then 3
  else if riskLevel = "critical" then 4
  else 1

/-- SafetyService.calculateOverallRisk: the reduce of the source
without an initial value, modelled as a fold of the tail over the
head.  A strictly greater priority replaces the running maximum, so the
earliest assessment wins ties. -/
def calculateOverallRisk (first : SafetyResult) (rest : List SafetyResult) : SafetyResult :=
  rest.foldl
    (fun mx cur =>
      if getRiskPriority cur.riskLevel > getRiskPriority mx.riskLevel then cur else mx)
    first

/-- SafetyService.determinePaymentMethod. -/
def determinePaymentMethod (risk : SafetyResult) : String :=
  if risk.riskLevel = "critical" then "blocked"
  else if risk.riskLevel = "high" then "escrow"
  else if risk.riskLevel = "medium" then "escrow"
  else if risk.riskLevel = "low" then "direct"
  else "escrow"

/-- SafetyService.getRecommendedAction, defaulting to the medium action
as the source does. -/
def getRecommendedAction (risk : SafetyResult) : String :=
  if risk.riskLevel = "low" then "✅ Transaction approved - proceed with confidence"
  else if risk.riskLevel = "medium" then "⚠️ Transaction approved with escrow protection"
  else if risk.riskLevel = "high" then "🔒 Transaction requires escrow - high risk detected"
  else if risk.riskLevel = "critical" then "🚨 Transaction blocked - critical safety risk"
  else "⚠️ Transaction approved with escrow protection"

/-- The decision record enhancedTransactionSafety returns. -/
structure TxDecision where
  isApproved : Bool
  safetyData : SafetyResult
  requiresEscrow : Bool
  recommendedAction : String
  paymentMethod : String
deriving DecidableEq

/-- SafetyService.enhancedTransactionSafety, success path: the three
concurrent checks are its arguments, the overall risk is the reduce
over them in order, and the decision fields are derived from the
payment method. -/
def enhancedTransactionSafety (buyerSafety vendorSafety transactionSafety : SafetyResult) :
    TxDecision :=
  let overallRisk := calculateOverallRisk buyerSafety [vendorSafety, transactionSafety]
  let paymentMethod := determinePaymentMethod overallRisk
  ⟨!(paymentMethod == "blocked"), overallRisk, paymentMethod == "escrow",
    getRecommendedAction overallRisk, paymentMethod⟩

/-- The fixed fallback decision of the catch block of
enhancedTransactionSafety. -/
def getFallbackTransactionSafety : TxDecision :=
  ⟨true,
    ⟨"medium", 50, ["Safety service unavailable - using fallback"],
      "⚠️ Proceed with caution - verification unavailable", ["fallback"]⟩,
    true, "Use escrow for safety", "escrow"⟩

/-- Validity of the categorical risk level of a provider response, as
its TypeScript type declares it. -/
def threatLevelValid (t : Option ThreatData) : Prop :=
  ∀ d, t = some d → ∀ lvl, d.riskLevel = some lvl →
    lvl = "low" ∨ lvl = "medium" ∨ lvl = "high" ∨ lvl = "critical"

/-- Spec side deduction of one provider response, written from the
words of the claim: the numeric riskScore when present, else the table
value of the categorical riskLevel. -/
def specDeduction (d : ThreatData) : Int :=
  match d.riskScore with
  | some rs => rs
  | none =>
    match d.riskLevel with
    | some lvl =>
      if lvl = "low" then 0
      else if lvl = "medium" then 20
      else if lvl = "high" then 50
      else if lvl = "critical" then 80
      else 0
    | none => 0

/-- The provider responses that took part in a wallet safety check. -/
def respondedThreat (chain : ChainT) (t : Option ThreatData) : List ThreatData :=
  match chain with
  | .solana => []
  | _ => t.toList

/-- Spec side score, written from the words of the claim: 100 minus the
per provider deductions, clamped to the interval from 0 to 100. -/
def specScore (ds : List ThreatData) : Int :=
  max 0 (min 100 (100 - (ds.map specDeduction).sum))

/-- Spec side level thresholds, written from the words of the claim. -/
def specLevelOf (s : Int) : String :=
  if s ≥ 80 then "low"
  else if s ≥ 60 then "medium"
  else if s ≥ 30 then "high"
  else "critical"

/-- Spec side priority order of the claim, low before medium before
high before critical. -/
def specPriority (lvl : String) : Nat :=
  if lvl = "low" then 1
  else if lvl = "medium" then 2
  else if lvl = "high" then 3
  else if lvl = "critical" then 4
  else 0

/-- Spec side overall choice, written from the words of the claim: the
first assessment whose priority attains the maximum. -/
def specHighestFirst (rs : List SafetyResult) : Option SafetyResult :=
  let m := (rs.map (fun r => specPriority r.riskLevel)).foldl Nat.max 0
  rs.find? (fun r => specPriority r.riskLevel == m)

theorem calculateRiskScore_spec (d : ThreatData)
    (hv : ∀ lvl, d.riskLevel = some lvl →
      lvl = "low" ∨ lvl = "medium" ∨ lvl = "high" ∨ lvl = "critical") :
    calculateRiskScore (some d) none = specScore [d] := by
  unfold calculateRiskScore specScore specDeduction
  cases hrs : d.riskScore with
  | some rs => simp [hrs]
  | none =>
    cases hrl : d.riskLevel with
    | none => simp [hrs, hrl]
    | some lvl =>
      rcases hv lvl hrl with rfl | rfl | rfl | rfl <;> simp [hrs, hrl, riskDeductions]

end SafetyService

/-- C3 counterexample: when the only provider is unavailable (its
getThreatRisk call yields null, as it does both without credentials and
on any API failure), checkWalletSafety returns the perfect score 100
with riskLevel low and an empty providers list, not the fixed neutral
assessment of score 50, riskLevel medium, providers fallback. -/
theorem c3_counterexample :
    SafetyService.getThreatRisk false (.ok ⟨some 90, some "critical", none⟩) = none
    ∧ (SafetyService.checkWalletSafety .ethereum none).score = 100
    ∧ (SafetyService.checkWalletSafety .ethereum none).score ≠ 50
    ∧ (SafetyService.checkWalletSafety .ethereum none).riskLevel ≠ "medium"
    ∧ (SafetyService.checkWalletSafety .ethereum none).providers ≠ ["fallback"] := by
  decide

/-- C3, amended: getThreatRisk yields null, never an error, both when
credentials are missing and on any provider failure; with no provider
response checkWalletSafety returns score 100, riskLevel low and an
empty providers list, and being a total function it propagates no error
to the caller.  The fixed neutral assessment of score 50, riskLevel
medium and providers fallback exists only in the catch block of
checkWalletSafety, which the null-returning providers never reach. -/
theorem c3_unavailable_providers_yield_perfect_score :
    (∀ api : Except String SafetyService.ThreatData,
        SafetyService.getThreatRisk false api = none)
    ∧ (∀ msg : String, SafetyService.getThreatRisk true (.error msg) = none)
    ∧ (∀ chain : SafetyService.ChainT,
        (SafetyService.checkWalletSafety chain none).score = 100
        ∧ (SafetyService.checkWalletSafety chain none).riskLevel = "low"
        ∧ (SafetyService.checkWalletSafety chain none).providers = [])
    ∧ SafetyService.fallbackWalletSafety.score = 50
    ∧ SafetyService.fallbackWalletSafety.riskLevel = "medium"
    ∧ SafetyService.fallbackWalletSafety.providers = ["fallback"] := by
  refine ⟨fun api => rfl, fun msg => rfl, fun chain => ?_, rfl, rfl, rfl⟩
  cases chain <;> exact ⟨rfl, rfl, rfl⟩

/-- C4: determinePaymentMethod maps critical to blocked, high and
medium to escrow, low to direct, and every unrecognized level to
escrow; and every decision of enhancedTransactionSafety, including the
fallback one, satisfies isApproved equal to paymentMethod not blocked
and requiresEscrow equal to paymentMethod escrow. -/
theorem c4_payment_method_mapping :
    (∀ r : SafetyService.SafetyResult, r.riskLevel = "critical" →
        SafetyService.determinePaymentMethod r = "blocked")
    ∧ (∀ r : SafetyService.SafetyResult, r.riskLevel = "high" →
        SafetyService.determinePaymentMethod r = "escrow")
    ∧ (∀ r : SafetyService.SafetyResult, r.riskLevel = "medium" →
        SafetyService.determinePaymentMethod r = "escrow")
    ∧ (∀ r : SafetyService.SafetyResult, r.riskLevel = "low" →
        SafetyService.determinePaymentMethod r = "direct")
    ∧ (∀ r : SafetyService.SafetyResult,
        r.riskLevel ≠ "critical" → r.riskLevel ≠ "high" →
        r.riskLevel ≠ "medium" → r.riskLevel ≠ "low" →
        SafetyService.determinePaymentMethod r = "escrow")
    ∧ (∀ b v t : SafetyService.SafetyResult,
        (SafetyService.enhancedTransactionSafety b v t).isApproved
          = !((SafetyService.enhancedTransactionSafety b v t).paymentMethod == "blocked")
        ∧ (SafetyService.enhancedTransactionSafety b v t).requiresEscrow
          = ((SafetyService.enhancedTransactionSafety b v t).paymentMethod == "escrow"))
    ∧ (SafetyService.getFallbackTransactionSafety.isApproved
        = !(SafetyService.getFallbackTransactionSafety.paymentMethod == "blocked")
       ∧ SafetyService.getFallbackTransactionSafety.requiresEscrow
        = (SafetyService.getFallbackTransactionSafety.paymentMethod == "escrow")) := by
  refine ⟨?_, ?_, ?_, ?_, ?_, ?_, by decide⟩
  · intro r h; simp [SafetyService.determinePaymentMethod, h]
  · intro r h; simp [SafetyService.determinePaymentMethod, h]
  · intro r h; simp [SafetyService.determinePaymentMethod, h]
  · intro r h; simp [SafetyService.determinePaymentMethod, h]
  · intro r h1 h2 h3 h4; simp [SafetyService.determinePaymentMethod, h1, h2, h3, h4]
  · intro b v t; exact ⟨rfl, rfl⟩

/-- C5: on the success path the wallet safety score is exactly 100
minus the per provider deduction (numeric riskScore when present, else
the table value of the categorical level), clamped to the interval from
0 to 100, and the returned level is the pure threshold function of that
score. -/
theorem c5_score_composition (chain : SafetyService.ChainT)
    (t : Option SafetyService.ThreatData) (hv : SafetyService.threatLevelValid t) :
    (SafetyService.checkWalletSafety chain t).score
      = SafetyService.specScore (SafetyService.respondedThreat chain t)
    ∧ (SafetyService.checkWalletSafety chain t).riskLevel
      = SafetyService.specLevelOf ((SafetyService.checkWalletSafety chain t).score) := by
  constructor
  · cases chain <;> cases t with
    | none => simp [SafetyService.checkWalletSafety, SafetyService.respondedThreat,
        SafetyService.calculateRiskScore, SafetyService.specScore]
    | some d =>
      first
      | exact SafetyService.calculateRiskScore_spec d (fun lvl h => hv d rfl lvl h)
      | simp [SafetyService.checkWalletSafety, SafetyService.respondedThreat,
          SafetyService.calculateRiskScore, SafetyService.specScore]
  · rfl

/-- C5 witness: a concrete categorical provider response on base. -/
theorem c5_witness :
    (SafetyService.checkWalletSafety .base (some ⟨none, some "high", none⟩)).score
      = SafetyService.specScore
          (SafetyService.respondedThreat .base (some ⟨none, some "high", none⟩))
    ∧ (SafetyService.checkWalletSafety .base (some ⟨none, some "high", none⟩)).riskLevel
      = SafetyService.specLevelOf
          ((SafetyService.checkWalletSafety .base (some ⟨none, some "high", none⟩)).score) :=
  c5_score_composition .base (some ⟨none, some "high", none⟩)
    (by
      intro d hd lvl hl
      injection hd with h1
      subst h1
      injection hl with h2
      subst h2
      right; right; left; rfl)

/-- C6: the overall assessment of enhancedTransactionSafety is the
single input assessment of highest priority under low before medium
before high before critical, earliest wins ties; and on the concrete
inputs buyer low, vendor critical, transaction low it returns overall
riskLevel critical with paymentMethod blocked. -/
theorem c6_overall_risk_highest_first :
    (∀ b v t : SafetyService.SafetyResult,
        (b.riskLevel = "low" ∨ b.riskLevel = "medium"
          ∨ b.riskLevel = "high" ∨ b.riskLevel = "critical") →
        (v.riskLevel = "low" ∨ v.riskLevel = "medium"
          ∨ v.riskLevel = "high" ∨ v.riskLevel = "critical") →
        (t.riskLevel = "low" ∨ t.riskLevel = "medium"
          ∨ t.riskLevel = "high" ∨ t.riskLevel = "critical") →
        some (SafetyService.calculateOverallRisk b [v, t])
          = SafetyService.specHighestFirst [b, v, t])
    ∧ (SafetyService.enhancedTransactionSafety
        ⟨"low", 95, [], "", []⟩ ⟨"critical", 5, [], "", []⟩
        ⟨"low", 90, [], "", []⟩).safetyData.riskLevel = "critical"
    ∧ (SafetyService.enhancedTransactionSafety
        ⟨"low", 95, [], "", []⟩ ⟨"critical", 5, [], "", []⟩
        ⟨"low", 90, [], "", []⟩).paymentMethod = "blocked" := by
  refine ⟨?_, by decide, by decide⟩
  intro b v t hb hv ht
  rcases hb with hb | hb | hb | hb <;> rcases hv with hv | hv | hv | hv <;>
    rcases ht with ht | ht | ht | ht <;>
    simp [SafetyService.calculateOverallRisk, SafetyService.getRiskPriority,
      SafetyService.specHighestFirst, SafetyService.specPriority, hb, hv, ht]

namespace EscrowController

/-- The first event argument as the controller inspects it: a bigint
value or some other runtime type. -/
inductive EventArg
  | big (n : Int)
  | nonBig
deriving DecidableEq

/-- A successfully parsed receipt log entry. -/
structure ParsedEvent where
  name : String
  arg0 : Option EventArg
deriving DecidableEq

/-- One receipt log entry together with the outcome of
contract.interface.parseLog on it; none models the parse throwing. -/
structure LogR where
  parsed : Option ParsedEvent
deriving DecidableEq

/-- A transaction receipt. -/
structure Receipt where
  logs : List LogR
deriving DecidableEq

/-- The metadata of the create escrow request body, reduced to the
fields the controller reads: the optional description and title and the
optional milestones array (an empty array is present, hence truthy). -/
structure CreateMeta where
  description : Option String
  title : Option String
  milestones : Option (List String)
deriving DecidableEq

/-- The create escrow request body fields the persisted mirror uses. -/
structure CreateEscrowDto where
  seller : String
  amount : String
  tokenAddress : Option String
  buyerEmail : String
  sellerEmail : String
  metadata : Option CreateMeta
deriving DecidableEq

/-- One entry of the mirror timeline. -/
structure TimelineEntry where
  status : String
  description : String
  actor : String
deriving DecidableEq

/-- The dispute record the dispute action embeds in the mirror.  The
createdAt date is wall clock and not modelled. -/
structure DisputeRec where
  reason : String
  evidence : List String
deriving DecidableEq

/-- The TransactionMirror document as the escrow controller writes it.
The controller sets no top level status at creation (the schema default
is outside the repository files), so the status field is optional; the
amount is kept as the raw request string, the parseFloat conversion
being a numeric collaborator the claims never inspect. -/
structure TransactionMirror where
  transactionId : String
  escrowId : String
  buyerEmail : String
  sellerEmail : String
  amountStr : String
  currency : String
  txType : String
  status : Option String
  timeline : List TimelineEntry
  dispute : Option DisputeRec
deriving DecidableEq

/-- The escrow id extraction failures of createEscrow, one per throw
site. -/
inductive EscrowErr
  | noLogs
  | eventNotFound
  | invalidValue
  | invalidId
deriving DecidableEq

/-- The zero address literal. -/
def zeroAddress : String := "0x0000000000000000000000000000000000000000"

/-- The predicate of the find over the receipt logs: the log parses and
the parsed event is named EscrowCreated; a parse failure is swallowed
and treated as no match, as the try catch of the source does. -/
def isEscrowCreatedLog (l : LogR) : Bool :=
  match l.parsed with
  | some p => p.name == "EscrowCreated"
  | none => false

/-- EscrowController.createEscrow from the point where the transaction
receipt is available: the log scan, the escrow id extraction with its
validation chain, and the construction of the persisted mirror with its
initial timeline entry.  The sanitizers are regex collaborators passed
as a function argument. -/
def createEscrow (sanitizeE : String → String) (dto : CreateEscrowDto) (txHash : String)
    (receipt : Option Receipt) : Except EscrowErr (Int × TransactionMirror) :=
  match receipt with
  | none => .error .noLogs
  | some r =>
    if r.logs.isEmpty then .error .noLogs
    else
      match r.logs.find? isEscrowCreatedLog with
      | none => .error .eventNotFound
      | some l =>
        match l.parsed with
        | none => .error .eventNotFound
        | some p =>
          match p.arg0 with
          | none => .error .invalidValue
          | some .nonBig => .error .invalidValue
          | some (.big n) =>
            if n = 0 then .error .invalidValue
            else if n ≤ 0 then .error .invalidId
            else
              let finalTokenAddress :=
                match dto.tokenAddress with
                | some tk => if tk.isEmpty then zeroAddress else tk
                | none => zeroAddress
              .ok (n,
                ⟨txHash, toString n, sanitizeE dto.buyerEmail, sanitizeE dto.sellerEmail,
                  dto.amount,
                  if finalTokenAddress = zeroAddress then "ETH" else "USDC",
                  match dto.metadata with
                  | some m => match m.milestones with
                    | some _ => "service"
                    | none => "marketplace"
                  | none => "marketplace",
                  none,
                  [⟨"pending", "Escrow created", sanitizeE dto.buyerEmail⟩],
                  none⟩)

/-- The first parsed EscrowCreated event of a receipt, written from the
words of the claim. -/
def firstEscrowCreated (receipt : Option Receipt) : Option ParsedEvent :=
  match receipt with
  | none => none
  | some r => (r.logs.filterMap LogR.parsed).find? (fun p => p.name == "EscrowCreated")

/-- Extraction failure as the claim words it: the EscrowCreated event
is absent, unparseable, or yields a non positive id. -/
def specExtractionFailure (receipt : Option Receipt) : Prop :=
  match firstEscrowCreated receipt with
  | none => True
  | some p =>
    match p.arg0 with
    | some (.big n) => n ≤ 0
    | _ => True

/-- A chain transaction handle. -/
structure ChainTx where
  hash : String
deriving DecidableEq

/-- EscrowController.releaseEscrow: the on chain releasePayment call
outcome is the first argument; only after its success is the matching
mirror document advanced to completed with an appended timeline entry. -/
def releaseEscrow (outcome : Except String ChainTx) (store : Option TransactionMirror) :
    Except String String × Option TransactionMirror :=
  match outcome with
  | .error e => (.error e, store)
  | .ok tx =>
    (.ok tx.hash,
      store.map (fun m =>
        ⟨m.transactionId, m.escrowId, m.buyerEmail, m.sellerEmail, m.amountStr, m.currency,
          m.txType, some "completed",
          m.timeline ++ [⟨"completed", "Payment released to seller", "system"⟩],
          m.dispute⟩))

/-- EscrowController.refundEscrow: the on chain cancelEscrow call, then
the mirror advance to cancelled. -/
def refundEscrow (outcome : Except String ChainTx) (store : Option TransactionMirror) :
    Except String String × Option TransactionMirror :=
  match outcome with
  | .error e => (.error e, store)
  | .ok tx =>
    (.ok tx.hash,
      store.map (fun m =>
        ⟨m.transactionId, m.escrowId, m.buyerEmail, m.sellerEmail, m.amountStr, m.currency,
          m.txType, some "cancelled",
          m.timeline ++ [⟨"cancelled", "Payment refunded to buyer", "system"⟩],
          m.dispute⟩))

/-- EscrowController.disputeEscrow: the on chain fileDispute call, then
the mirror advance to disputed with the dispute record and an appended
timeline entry. -/
def disputeEscrow (sanitizeS : String → String) (reason : String)
    (evidence : Option (List String)) (outcome : Except String ChainTx)
    (store : Option TransactionMirror) :
    Except String String × Option TransactionMirror :=
  let sanitizedReason := sanitizeS reason
  let sanitizedEvidence :=
    match evidence with
    | some ev => ev.map sanitizeS
    | none => []
  match outcome with
  | .error e => (.error e, store)
  | .ok tx =>
    (.ok tx.hash,
      store.map (fun m =>
        ⟨m.transactionId, m.escrowId, m.buyerEmail, m.sellerEmail, m.amountStr, m.currency,
          m.txType, some "disputed",
          m.timeline ++ [⟨"disputed", "Dispute filed: " ++ sanitizedReason, "system"⟩],
          some ⟨sanitizedReason, sanitizedEvidence⟩⟩))

theorem find_escrowCreated_eq (logs : List LogR) :
    (logs.filterMap LogR.parsed).find? (fun p => p.name == "EscrowCreated")
      = (logs.find? isEscrowCreatedLog).bind LogR.parsed := by
  induction logs with
  | nil => rfl
  | cons l ls ih =>
    cases hp : l.parsed with
    | none =>
      have hl : isEscrowCreatedLog l = false := by simp [isEscrowCreatedLog, hp]
      simp only [List.find?, List.filterMap_cons, hp, hl, ih]
    | some p =>
      cases hn : (p.name == "EscrowCreated") with
      | true =>
        have hl : isEscrowCreatedLog l = true := by simp only [isEscrowCreatedLog, hp, hn]
        simp only [List.find?, List.filterMap_cons, hp, hl, hn]
        simp [hp]
      | false =>
        have hl : isEscrowCreatedLog l = false := by simp only [isEscrowCreatedLog, hp, hn]
        simp only [List.find?, List.filterMap_cons, hp, hl, hn, ih]

end EscrowController

/-- C7: escrow creation raises an extraction error exactly when the
receipt has no first EscrowCreated event, the event argument is not a
bigint, or the id it yields is not positive; and against a receipt
whose EscrowCreated event carries escrowId 42 it returns id 42 and
persists a mirror whose initial timeline entry has status pending. -/
theorem c7_escrow_id_extraction :
    (∀ (san : String → String) (dto : EscrowController.CreateEscrowDto) (txh : String)
        (receipt : Option EscrowController.Receipt),
        (∃ e, EscrowController.createEscrow san dto txh receipt = .error e)
          ↔ EscrowController.specExtractionFailure receipt)
    ∧ EscrowController.createEscrow id
        ⟨"0xseller", "1.5", none, "buyer@x.com", "seller@x.com", none⟩ "0xhash"
        (some ⟨[⟨some ⟨"EscrowCreated", some (.big 42)⟩⟩]⟩)
      = .ok (42,
          ⟨"0xhash", "42", "buyer@x.com", "seller@x.com", "1.5", "ETH", "marketplace",
            none, [⟨"pending", "Escrow created", "buyer@x.com"⟩], none⟩) := by
  constructor
  · intro san dto txh receipt
    cases receipt with
    | none =>
      simp [EscrowController.createEscrow, EscrowController.specExtractionFailure,
        EscrowController.firstEscrowCreated]
    | some r =>
      have hrw := EscrowController.find_escrowCreated_eq r.logs
      unfold EscrowController.createEscrow EscrowController.specExtractionFailure
        EscrowController.firstEscrowCreated
      by_cases hempty : r.logs.isEmpty
      · have hnil : r.logs = [] := List.isEmpty_iff.mp hempty
        simp [hempty, hnil]
      · cases hf : r.logs.find? EscrowController.isEscrowCreatedLog with
        | none => simp [hempty, hf, hrw]
        | some l =>
          cases hlp : l.parsed with
          | none => simp [hempty, hf, hlp, hrw]
          | some p =>
            cases ha : p.arg0 with
            | none => simp [hempty, hf, hlp, ha, hrw]
            | some arg =>
              cases arg with
              | nonBig => simp [hempty, hf, hlp, ha, hrw]
              | big n =>
                by_cases h0 : n = 0
                · simp [hempty, hf, hlp, ha, h0, hrw]
                · by_cases hneg : n ≤ 0
                  · simp [hempty, hf, hlp, ha, h0, hneg, hrw]
                  · simp [hempty, hf, hlp, ha, h0, hneg, hrw]
  · decide

/-- C8: for release, refund and dispute, a failed on chain call leaves
the mirror store untouched and propagates the error, while a successful
call advances the matching mirror to completed, cancelled or disputed
respectively and appends the corresponding timeline entry; a store with
no matching document stays empty. -/
theorem c8_mirror_advances_only_after_chain_success :
    (∀ (e : String) (store : Option EscrowController.TransactionMirror),
        EscrowController.releaseEscrow (.error e) store = (.error e, store)
        ∧ EscrowController.refundEscrow (.error e) store = (.error e, store))
    ∧ (∀ (san : String → String) (reason : String) (evidence : Option (List String))
        (e : String) (store : Option EscrowController.TransactionMirror),
        EscrowController.disputeEscrow san reason evidence (.error e) store = (.error e, store))
    ∧ (∀ (tx : EscrowController.ChainTx) (m : EscrowController.TransactionMirror),
        (EscrowController.releaseEscrow (.ok tx) (some m)).1 = .ok tx.hash
        ∧ ((EscrowController.releaseEscrow (.ok tx) (some m)).2.map (fun x => x.status))
          = some (some "completed")
        ∧ ((EscrowController.releaseEscrow (.ok tx) (some m)).2.map (fun x => x.timeline))
          = some (m.timeline ++ [⟨"completed", "Payment released to seller", "system"⟩]))
    ∧ (∀ (tx : EscrowController.ChainTx) (m : EscrowController.TransactionMirror),
        (EscrowController.refundEscrow (.ok tx) (some m)).1 = .ok tx.hash
        ∧ ((EscrowController.refundEscrow (.ok tx) (some m)).2.map (fun x => x.status))
          = some (some "cancelled")
        ∧ ((EscrowController.refundEscrow (.ok tx) (some m)).2.map (fun x => x.timeline))
          = some (m.timeline ++ [⟨"cancelled", "Payment refunded to buyer", "system"⟩]))
    ∧ (∀ (san : String → String) (reason : String) (evidence : Option (List String))
        (tx : EscrowController.ChainTx) (m : EscrowController.TransactionMirror),
        (EscrowController.disputeEscrow san reason evidence (.ok tx) (some m)).1 = .ok tx.hash
        ∧ ((EscrowController.disputeEscrow san reason evidence (.ok tx) (some m)).2.map
            (fun x => x.status)) = some (some "disputed")
        ∧ ((EscrowController.disputeEscrow san reason evidence (.ok tx) (some m)).2.map
            (fun x => x.timeline))
          = some (m.timeline
              ++ [⟨"disputed", "Dispute filed: " ++ san reason, "system"⟩])
        ∧ ((EscrowController.disputeEscrow san reason evidence (.ok tx) (some m)).2.map
            (fun x => x.dispute))
          = some (some ⟨san reason,
              match evidence with
              | some ev => ev.map san
              | none => []⟩))
    ∧ (∀ tx : EscrowController.ChainTx,
        (EscrowController.releaseEscrow (.ok tx) none).2 = none
        ∧ (EscrowController.refundEscrow (.ok tx) none).2 = none) := by
  exact ⟨fun e store => ⟨rfl, rfl⟩,
    fun san reason evidence e store => rfl,
    fun tx m => ⟨rfl, rfl, rfl⟩,
    fun tx m => ⟨rfl, rfl, rfl⟩,
    fun san reason evidence tx m => ⟨rfl, rfl, rfl, rfl⟩,
    fun tx => ⟨rfl, rfl⟩⟩

namespace BlockchainService

/-- The provider configuration record. -/
structure ProviderConfig where
  rpcUrl : String
  chainId : Option Int
  name : String
  timeout : Option Int
deriving DecidableEq

/-- An ethers.JsonRpcProvider instance as constructed by
initializeProvider, identified by the construction arguments: the
endpoint, the network options (attached only for a positive chain id)
and the timeout with its default. -/
structure Provider where
  rpcUrl : String
  optName : Option String
  optChainId : Option Int
  timeout : Int
deriving DecidableEq

/-- The cache key template of initializeProvider; a missing or zero
(falsy) chain id contributes the word default. -/
def cacheKey (config : ProviderConfig) : String :=
  config.rpcUrl ++ "-" ++
    (match config.chainId with
     | some c => if c = 0 then "default" else toString c
     | none => "default")

/-- Construction of a new provider: the timeout defaults to 10000 when
absent or zero, the network options are attached only when the chain id
is present and positive. -/
def mkProvider (config : ProviderConfig) : Provider :=
  let tmo : Int :=
    match config.timeout with
    | some t => if t = 0 then 10000 else t
    | none => 10000
  match config.chainId with
  | some c =>
    if c > 0 then ⟨config.rpcUrl, some config.name, some c, tmo⟩
    else ⟨config.rpcUrl, none, none, tmo⟩
  | none => ⟨config.rpcUrl, none, none, tmo⟩

/-- The static provider cache. -/
abbrev Cache := List (String × Provider)

/-- BlockchainService.initializeProvider: return the cached provider
for the key when present, else construct one and cache it before
returning it. -/
def initializeProvider (cache : Cache) (config : ProviderConfig) : Provider × Cache :=
  let key := cacheKey config
  match cache.lookup key with
  | some p => (p, cache)
  | none =>
    let p := mkProvider config
    (p, (key, p) :: cache)

/-- An ethers.Wallet bound to a provider. -/
structure BWallet where
  privateKey : String
  provider : Provider
deriving DecidableEq

/-- An ethers.Contract bound to a signer. -/
structure BContract where
  target : String
  abi : List String
  runner : BWallet
deriving DecidableEq

/-- The mutable instance state of a BlockchainService object, together
with the static provider cache. -/
structure BCState where
  providerConfig : ProviderConfig
  provider : Provider
  wallet : BWallet
  contract : BContract
  cache : Cache
deriving DecidableEq

/-- BlockchainService.testProviderConnection: the liveness probe on a
candidate provider, its outcome an oracle argument. -/
def testProviderConnection (live : Provider → Bool) (p : Provider) : Bool :=
  live p

/-- BlockchainService.switchProvider: construct (and thereby cache) the
candidate, probe it, and either fail leaving the four instance
references untouched or swap all four together. -/
def switchProvider (live : Provider → Bool) (s : BCState) (newConfig : ProviderConfig) :
    Except String Unit × BCState :=
  let r := initializeProvider s.cache newConfig
  let newProvider := r.1
  let cache1 := r.2
  if testProviderConnection live newProvider = false then
    (.error "Provider switch failed",
      ⟨s.providerConfig, s.provider, s.wallet, s.contract, cache1⟩)
  else
    let w : BWallet := ⟨s.wallet.privateKey, newProvider⟩
    (.ok (), ⟨newConfig, newProvider, w, ⟨s.contract.target, s.contract.abi, w⟩, cache1⟩)

/-- The never mixed invariant of the claim: the signer is bound to the
current provider and the contract to the current signer. -/
def consistentState (s : BCState) : Prop :=
  s.wallet.provider = s.provider ∧ s.contract.runner = s.wallet

end BlockchainService

/-- A concrete configuration for the C9 counterexample. -/
def c9ConfigA : BlockchainService.ProviderConfig :=
  ⟨"https://rpc-a.example", some 1, "netA", none⟩

/-- The candidate configuration of the C9 counterexample, absent from
the cache. -/
def c9ConfigB : BlockchainService.ProviderConfig :=
  ⟨"https://rpc-b.example", some 2, "netB", none⟩

/-- A concrete consistent starting state with an empty cache for the C9
counterexample. -/
def c9State : BlockchainService.BCState :=
  ⟨c9ConfigA, BlockchainService.mkProvider c9ConfigA,
    ⟨"0xkey", BlockchainService.mkProvider c9ConfigA⟩,
    ⟨"0xcontract", ["abi"], ⟨"0xkey", BlockchainService.mkProvider c9ConfigA⟩⟩,
    []⟩

/-- C9 counterexample: a switchProvider run whose liveness probe fails
still mutates state, namely the static provider cache, which receives
the unverified candidate before the probe runs; so the claim that the
liveness check happens before any state mutation is false, even though
the four instance references are indeed left unchanged. -/
theorem c9_counterexample :
    (BlockchainService.switchProvider (fun _ => false) c9State c9ConfigB).1
      = .error "Provider switch failed"
    ∧ (BlockchainService.switchProvider (fun _ => false) c9State c9ConfigB).2.cache
      ≠ c9State.cache
    ∧ (BlockchainService.switchProvider (fun _ => false) c9State c9ConfigB).2.providerConfig
      = c9State.providerConfig
    ∧ (BlockchainService.switchProvider (fun _ => false) c9State c9ConfigB).2.provider
      = c9State.provider
    ∧ (BlockchainService.switchProvider (fun _ => false) c9State c9ConfigB).2.wallet
      = c9State.wallet
    ∧ (BlockchainService.switchProvider (fun _ => false) c9State c9ConfigB).2.contract
      = c9State.contract := by
  decide

/-- C9, amended: switchProvider validates the candidate before mutating
any of the four instance references (on validation failure it raises
and leaves providerConfig, provider, wallet and contract exactly as
they were; on success it updates all four together and consistently),
but the static provider cache is already populated with the unverified
candidate during its construction, before the liveness probe. -/
theorem c9_switch_provider_frame :
    (∀ (live : BlockchainService.Provider → Bool) (s : BlockchainService.BCState)
        (cfg : BlockchainService.ProviderConfig) (e : String),
        (BlockchainService.switchProvider live s cfg).1 = .error e →
        (BlockchainService.switchProvider live s cfg).2.providerConfig = s.providerConfig
        ∧ (BlockchainService.switchProvider live s cfg).2.provider = s.provider
        ∧ (BlockchainService.switchProvider live s cfg).2.wallet = s.wallet
        ∧ (BlockchainService.switchProvider live s cfg).2.contract = s.contract)
    ∧ (∀ (live : BlockchainService.Provider → Bool) (s : BlockchainService.BCState)
        (cfg : BlockchainService.ProviderConfig),
        (BlockchainService.switchProvider live s cfg).1 = .ok () →
        (BlockchainService.switchProvider live s cfg).2.providerConfig = cfg
        ∧ (BlockchainService.switchProvider live s cfg).2.provider
          = (BlockchainService.initializeProvider s.cache cfg).1
        ∧ (BlockchainService.switchProvider live s cfg).2.wallet
          = ⟨s.wallet.privateKey, (BlockchainService.switchProvider live s cfg).2.provider⟩
        ∧ (BlockchainService.switchProvider live s cfg).2.contract
          = ⟨s.contract.target, s.contract.abi,
              (BlockchainService.switchProvider live s cfg).2.wallet⟩)
    ∧ (∀ (live : BlockchainService.Provider → Bool) (s : BlockchainService.BCState)
        (cfg : BlockchainService.ProviderConfig),
        BlockchainService.consistentState s →
        BlockchainService.consistentState (BlockchainService.switchProvider live s cfg).2) := by
  refine ⟨?_, ?_, ?_⟩
  · intro live s cfg e h
    cases hlive : live ((BlockchainService.initializeProvider s.cache cfg).1) with
    | false =>
      simp [BlockchainService.switchProvider, BlockchainService.testProviderConnection, hlive]
    | true =>
      simp [BlockchainService.switchProvider, BlockchainService.testProviderConnection,
        hlive] at h
  · intro live s cfg h
    cases hlive : live ((BlockchainService.initializeProvider s.cache cfg).1) with
    | false =>
      simp [BlockchainService.switchProvider, BlockchainService.testProviderConnection,
        hlive] at h
    | true =>
      simp [BlockchainService.switchProvider, BlockchainService.testProviderConnection, hlive]
  · intro live s cfg hs
    cases hlive : live ((BlockchainService.initializeProvider s.cache cfg).1) with
    | false =>
      simpa [BlockchainService.switchProvider, BlockchainService.testProviderConnection,
        hlive, BlockchainService.consistentState] using hs
    | true =>
      simp [BlockchainService.switchProvider, BlockchainService.testProviderConnection,
        hlive, BlockchainService.consistentState]

theorem charToNatOfNatValid (n : Nat) (h : n < 55296) : (Char.ofNat n).toNat = n := by
  rw [Char.ofNat, dif_pos (Or.inl h)]
  simp [Char.ofNatAux, Char.toNat, UInt32.toNat]

theorem toLowerNotUpper (c u : Char) (hu1 : 65 ≤ u.toNat) (hu2 : u.toNat ≤ 90) :
    Char.toLower c ≠ u := by
  by_cases h : 65 ≤ c.toNat ∧ c.toNat ≤ 90
  · have he : Char.toLower c = Char.ofNat (c.toNat + 32) := by
      simp [Char.toLower, h.1, h.2]
    rw [he]
    intro heq
    have h2 : (Char.ofNat (c.toNat + 32)).toNat = c.toNat + 32 :=
      charToNatOfNatValid _ (by omega)
    rw [heq] at h2
    omega
  · have he : Char.toLower c = c := by
      simp only [Char.toLower]
      rw [if_neg]
      omega
    rw [he]
    intro heq
    subst heq
    omega

namespace TokenService

/-- A static registry entry. -/
structure TokenInfo where
  symbol : String
  decimals : Nat
  name : String
deriving DecidableEq

/-- TokenService.BASE_SEPOLIA_TOKENS with its literal keys: the zero
address, the checksummed mixed case USDC address, and the all lower
case WETH address. -/
def BASE_SEPOLIA_TOKENS : List (String × TokenInfo) :=
  [("0x0000000000000000000000000000000000000000", ⟨"ETH", 18, "Ethereum"⟩),
   ("0x036CbD53842c5426634e7929541eC2318f3dCF7e", ⟨"USDC", 6, "USD Coin"⟩),
   ("0x4200000000000000000000000000000000000006", ⟨"WETH", 18, "Wrapped Ethereum"⟩)]

/-- JavaScript toLowerCase restricted to the ASCII range the addresses
use. -/
def toLowerCase (s : String) : String :=
  ⟨s.data.map Char.toLower⟩

/-- TokenService.getTokenInfo: lower case the queried address, then the
exact key lookup in the registry with the JavaScript null default. -/
def getTokenInfo (tokenAddress : String) : Option TokenInfo :=
  BASE_SEPOLIA_TOKENS.lookup (toLowerCase tokenAddress)

/-- The JavaScript or-else on strings (an empty string is falsy). -/
def jsOrStr (s fallback : String) : String :=
  if s.isEmpty then fallback else s

/-- TokenService.getTokenSymbol. -/
def getTokenSymbol (tokenAddress : String) : String :=
  match getTokenInfo tokenAddress with
  | some info => jsOrStr info.symbol "UNKNOWN"
  | none => "UNKNOWN"

/-- No lower cased string equals the stored USDC key, because that key
contains the upper case letter C and toLowerCase never outputs an upper
case letter. -/
theorem toLowerCase_ne_usdcKey (s : String) :
    toLowerCase s ≠ "0x036CbD53842c5426634e7929541eC2318f3dCF7e" := by
  intro h
  have hdata : s.data.map Char.toLower
      = "0x036CbD53842c5426634e7929541eC2318f3dCF7e".data := congrArg String.data h
  have hC : 'C' ∈ s.data.map Char.toLower := by
    rw [hdata]; decide
  obtain ⟨c, _, hc⟩ := List.mem_map.mp hC
  exact toLowerNotUpper c 'C' (by decide) (by decide) hc

end TokenService

/-- C10: getTokenInfo lower cases the queried address but the registry
stores the USDC key in mixed case, so the USDC entry is unreachable for
every input casing (getTokenInfo null, getTokenSymbol UNKNOWN), while
the two entries whose stored key is already all lower case, the zero
address and the WETH address, are returned for any casing of their
address. -/
theorem c10_lowercase_lookup_misses_checksummed_keys :
    TokenService.getTokenInfo "0x036CbD53842c5426634e7929541eC2318f3dCF7e" = none
    ∧ TokenService.getTokenSymbol "0x036CbD53842c5426634e7929541eC2318f3dCF7e" = "UNKNOWN"
    ∧ (∀ addr : String,
        TokenService.toLowerCase addr = "0x036cbd53842c5426634e7929541ec2318f3dcf7e" →
        TokenService.getTokenInfo addr = none
        ∧ TokenService.getTokenSymbol addr = "UNKNOWN")
    ∧ (∀ (addr : String) (info : TokenService.TokenInfo),
        TokenService.getTokenInfo addr = some info →
        info = ⟨"ETH", 18, "Ethereum"⟩ ∨ info = ⟨"WETH", 18, "Wrapped Ethereum"⟩)
    ∧ (∀ addr : String,
        TokenService.toLowerCase addr = "0x0000000000000000000000000000000000000000" →
        TokenService.getTokenInfo addr = some ⟨"ETH", 18, "Ethereum"⟩)
    ∧ (∀ addr : String,
        TokenService.toLowerCase addr = "0x4200000000000000000000000000000000000006" →
        TokenService.getTokenInfo addr = some ⟨"WETH", 18, "Wrapped Ethereum"⟩) := by
  refine ⟨by decide, by decide, ?_, ?_, ?_, ?_⟩
  · intro addr h
    have hinfo : TokenService.getTokenInfo addr = none := by
      unfold TokenService.getTokenInfo
      rw [h]
      decide
    exact ⟨hinfo, by unfold TokenService.getTokenSymbol; rw [hinfo]⟩
  · intro addr info h
    unfold TokenService.getTokenInfo TokenService.BASE_SEPOLIA_TOKENS at h
    cases e0 : (TokenService.toLowerCase addr == "0x0000000000000000000000000000000000000000") with
    | true =>
      simp only [List.lookup, e0] at h
      cases h; left; rfl
    | false =>
      cases e1 : (TokenService.toLowerCase addr
          == "0x036CbD53842c5426634e7929541eC2318f3dCF7e") with
      | true =>
        exact absurd (beq_iff_eq.mp e1) (TokenService.toLowerCase_ne_usdcKey addr)
      | false =>
        cases e2 : (TokenService.toLowerCase addr
            == "0x4200000000000000000000000000000000000006") with
        | true =>
          simp only [List.lookup, e0, e1, e2] at h
          cases h; right; rfl
        | false =>
          simp only [List.lookup, e0, e1, e2] at h
          cases h
  · intro addr h
    unfold TokenService.getTokenInfo
    rw [h]
    decide
  · intro addr h
    unfold TokenService.getTokenInfo
    rw [h]
    decide
